import Mathlib

/-!
Verification of the sandbox container registry and lifecycle reconciliation
engine (prune policy, prune pass, rate-limited background trigger, batch
reconciliation, and the recreate command surface).

Timestamps are epoch milliseconds, modelled as `Int` (JavaScript number
subtraction `now - t` may be negative).  Prune thresholds are non-negative
integers modelled as `Nat`.  External collaborators (container runtime,
registry store, confirmation prompt) are modelled as explicit oracles /
list-valued state passed to the embedded functions, and the observable side
effects of each operation (registry reads, `docker rm` attempts, registry
removals, error output, exit codes) are recorded in result structures.
-/

/-- Prune thresholds from `SandboxConfig` (`prune.idleHours`,
`prune.maxAgeDays`); both are integers `≥ 0`, `0` disables the rule. -/
structure PrunePolicy where
  idleHours : Nat
  maxAgeDays : Nat
  deriving Repr, DecidableEq

/-- The slice of `SandboxConfig` the prune subsystem reads. -/
structure SandboxConfig where
  prune : PrunePolicy
  deriving Repr, DecidableEq

/-- A registry entry (`SandboxRegistryEntry`): container name (primary key),
recorded image, owning session key, and the two timestamps.  The prune code
only reads `containerName`, `createdAtMs` and `lastUsedAtMs`
(`PruneableRegistryEntry` is a `Pick` of these fields); we use the full
record throughout. -/
structure SandboxRegistryEntry where
  containerName : String
  image : String
  sessionKey : String
  createdAtMs : Int
  lastUsedAtMs : Int
  deriving Repr, DecidableEq

/-- `shouldPruneSandboxEntry` from `src/agents/sandbox/prune.ts`: both
thresholds zero disables pruning; otherwise an entry is pruned when the idle
rule or the age rule fires, each with a strict comparison. -/
def shouldPruneSandboxEntry (cfg : SandboxConfig) (now : Int)
    (entry : SandboxRegistryEntry) : Bool :=
  let idleHours := cfg.prune.idleHours
  let maxAgeDays := cfg.prune.maxAgeDays
  if idleHours = 0 ∧ maxAgeDays = 0 then
    false
  else
    let idleMs := now - entry.lastUsedAtMs
    let ageMs := now - entry.createdAtMs
    (decide (0 < idleHours) && decide (idleMs > (idleHours * 60 * 60 * 1000 : Nat))) ||
      (decide (0 < maxAgeDays) && decide (ageMs > (maxAgeDays * 24 * 60 * 60 * 1000 : Nat)))

/-- The reference predicate stated by the spec for `shouldPrune` (§4.4),
written from the spec's words with the flat constants `3_600_000` and
`86_400_000`, to be compared with the embedded source function. -/
def shouldPruneSpecRef (cfg : SandboxConfig) (now : Int)
    (entry : SandboxRegistryEntry) : Bool :=
  if cfg.prune.idleHours = 0 ∧ cfg.prune.maxAgeDays = 0 then
    false
  else
    (decide (0 < cfg.prune.idleHours) &&
        decide (now - entry.lastUsedAtMs > (cfg.prune.idleHours * 3600000 : Nat))) ||
      (decide (0 < cfg.prune.maxAgeDays) &&
        decide (now - entry.createdAtMs > (cfg.prune.maxAgeDays * 86400000 : Nat)))

/-- C1: `shouldPruneSandboxEntry` agrees with the spec's reference predicate
on every config, time and entry: false when both thresholds are zero,
otherwise the OR of the strict idle rule and the strict age rule; and the
comparisons are strict, so an entry exactly at the idle threshold is not
pruned while one millisecond beyond it is. -/
theorem shouldPruneSandboxEntry_eq_specRef :
    (∀ (cfg : SandboxConfig) (now : Int) (entry : SandboxRegistryEntry),
        shouldPruneSandboxEntry cfg now entry = shouldPruneSpecRef cfg now entry) ∧
      (∀ (idleHours : Nat) (now : Int) (entry : SandboxRegistryEntry),
          0 < idleHours →
          entry.lastUsedAtMs = now - idleHours * 3600000 →
          entry.createdAtMs = now →
          shouldPruneSandboxEntry ⟨⟨idleHours, 0⟩⟩ now entry = false) ∧
      (∀ (idleHours : Nat) (now : Int) (entry : SandboxRegistryEntry),
          0 < idleHours →
          entry.lastUsedAtMs = now - idleHours * 3600000 - 1 →
          shouldPruneSandboxEntry ⟨⟨idleHours, 0⟩⟩ now entry = true) := by
  have hEq : ∀ (cfg : SandboxConfig) (now : Int) (entry : SandboxRegistryEntry),
      shouldPruneSandboxEntry cfg now entry = shouldPruneSpecRef cfg now entry := by
    intro cfg now entry
    unfold shouldPruneSandboxEntry shouldPruneSpecRef
    have h1 : cfg.prune.idleHours * 60 * 60 * 1000 = cfg.prune.idleHours * 3600000 := by
      ring
    have h2 : cfg.prune.maxAgeDays * 24 * 60 * 60 * 1000 = cfg.prune.maxAgeDays * 86400000 := by
      ring
    simp only [h1, h2]
  refine ⟨hEq, ?_, ?_⟩
  · intro idleHours now entry hpos hlast hcreated
    rw [hEq]
    unfold shouldPruneSpecRef
    dsimp only
    split
    · rfl
    · simp only [Bool.or_eq_false_iff, Bool.and_eq_false_iff, decide_eq_false_iff_not]
      refine ⟨Or.inr ?_, Or.inl ?_⟩
      · simp only [hlast]
        omega
      · decide
  · intro idleHours now entry hpos hlast
    rw [hEq]
    unfold shouldPruneSpecRef
    dsimp only
    split
    · next h => omega
    · simp only [Bool.or_eq_true, Bool.and_eq_true, decide_eq_true_iff]
      refine Or.inl ⟨by simpa using hpos, ?_⟩
      simp only [hlast]
      omega

/-- Witness for C1: at `idleHours = 1`, `now = 3_600_000`, the entry last
used at `0` (exact boundary) is not pruned, and one last used at `-1` is. -/
theorem shouldPruneSandboxEntry_eq_specRef_witness :
    shouldPruneSandboxEntry ⟨⟨1, 0⟩⟩ 3600000 ⟨"c", "img", "agent:a", 3600000, 0⟩ = false ∧
      shouldPruneSandboxEntry ⟨⟨1, 0⟩⟩ 3600000 ⟨"c", "img", "agent:a", 3600000, -1⟩ = true := by
  constructor
  · exact shouldPruneSandboxEntry_eq_specRef.2.1 1 3600000
      ⟨"c", "img", "agent:a", 3600000, 0⟩ (by decide) (by decide) (by decide)
  · exact shouldPruneSandboxEntry_eq_specRef.2.2 1 3600000
      ⟨"c", "img", "agent:a", 3600000, -1⟩ (by decide) (by decide)

/-- Modelled from the spec: `removeRegistryEntry` lives in
`src/agents/sandbox/registry.ts`, which is not part of the provided sources.
Spec §4.1: `remove(containerName) -> void`, a removal is reflected in the
next read, and removing a non-existent entry is a no-op.  The registry never
holds two entries with the same name (§3), so removal by name is a filter. -/
def removeRegistryEntry (containerName : String)
    (entries : List SandboxRegistryEntry) : List SandboxRegistryEntry :=
  entries.filter (fun e => e.containerName ≠ containerName)

/-- Observable outcome of one `pruneSandboxRegistryEntries` pass:
whether the pass raised (only the registry read can), whether `read()` was
invoked, the `docker rm -f` attempts (in order), those attempts whose
`execDocker` call threw (the throw is caught and ignored), the
`params.remove` registry-removal calls, and the final registry content. -/
structure PruneOutcome where
  raised : Bool
  registryRead : Bool
  rmAttempts : List String
  rmFailures : List String
  removeCalls : List String
  finalEntries : List SandboxRegistryEntry
  deriving Repr, DecidableEq

/-- One iteration of the prune loop body: an ineligible entry is skipped;
for an eligible entry, `docker rm -f` is attempted (`allowFailure: true`; a
throw — decided by the `rtRemoveFails` oracle — is caught and ignored) and
the `finally` block then always performs the registry removal. -/
def pruneEntryStep (cfg : SandboxConfig) (now : Int) (rtRemoveFails : String → Bool)
    (acc : PruneOutcome) (entry : SandboxRegistryEntry) : PruneOutcome :=
  if shouldPruneSandboxEntry cfg now entry then
    { acc with
      rmAttempts := acc.rmAttempts ++ [entry.containerName]
      rmFailures :=
        acc.rmFailures ++ (if rtRemoveFails entry.containerName then [entry.containerName] else [])
      removeCalls := acc.removeCalls ++ [entry.containerName]
      finalEntries := removeRegistryEntry entry.containerName acc.finalEntries }
  else
    acc

/-- `pruneSandboxRegistryEntries` from `src/agents/sandbox/prune.ts`:
short-circuit when both thresholds are zero (no registry read), otherwise
read the registry (the read may throw, decided by `readFails`; the exception
propagates to the caller) and run the loop over the snapshot.  `entries` is
the registry store content at the time of the pass; `now` is the single
`Date.now()` captured at the start. -/
def pruneSandboxRegistryEntries (cfg : SandboxConfig) (now : Int)
    (entries : List SandboxRegistryEntry) (readFails : Bool)
    (rtRemoveFails : String → Bool) : PruneOutcome :=
  if cfg.prune.idleHours = 0 ∧ cfg.prune.maxAgeDays = 0 then
    { raised := false, registryRead := false, rmAttempts := [], rmFailures := [],
      removeCalls := [], finalEntries := entries }
  else if readFails then
    { raised := true, registryRead := true, rmAttempts := [], rmFailures := [],
      removeCalls := [], finalEntries := entries }
  else
    entries.foldl (pruneEntryStep cfg now rtRemoveFails)
      { raised := false, registryRead := true, rmAttempts := [], rmFailures := [],
        removeCalls := [], finalEntries := entries }

/-- The module-level mutable `lastPruneAtMs` of `prune.ts`. -/
structure PruneGlobalState where
  lastPruneAtMs : Int
  deriving Repr, DecidableEq

/-- Result of one `maybePruneSandboxes` invocation: the updated module
state, whether the rate limit skipped the call, the inner pass outcome, and
whether the top-level catch logged a prune failure. -/
structure MaybePruneResult where
  state : PruneGlobalState
  skipped : Bool
  pass : PruneOutcome
  errorLogged : Bool
  deriving Repr, DecidableEq

/-- `maybePruneSandboxes` from `src/agents/sandbox/prune.ts`: return
immediately when invoked less than five minutes after `lastPruneAtMs`;
otherwise set `lastPruneAtMs := now` first, then run the prune pass inside a
try/catch whose handler only logs.  `passNow` is the second `Date.now()`
captured inside the pass. -/
def maybePruneSandboxes (cfg : SandboxConfig) (now passNow : Int)
    (st : PruneGlobalState) (entries : List SandboxRegistryEntry)
    (readFails : Bool) (rtRemoveFails : String → Bool) : MaybePruneResult :=
  if now - st.lastPruneAtMs < 5 * 60 * 1000 then
    { state := st, skipped := true,
      pass := { raised := false, registryRead := false, rmAttempts := [], rmFailures := [],
                removeCalls := [], finalEntries := entries },
      errorLogged := false }
  else
    let outcome := pruneSandboxRegistryEntries cfg passNow entries readFails rtRemoveFails
    { state := { lastPruneAtMs := now }, skipped := false, pass := outcome,
      errorLogged := outcome.raised }

theorem pruneEntryStep_finalEntries_sub (cfg : SandboxConfig) (now : Int)
    (rt : String → Bool) (acc : PruneOutcome) (entry e : SandboxRegistryEntry)
    (h : e ∈ (pruneEntryStep cfg now rt acc entry).finalEntries) :
    e ∈ acc.finalEntries := by
  unfold pruneEntryStep at h
  split at h
  · simp only [removeRegistryEntry, List.mem_filter] at h
    exact h.1
  · exact h

theorem pruneFold_finalEntries_sub (cfg : SandboxConfig) (now : Int)
    (rt : String → Bool) :
    ∀ (l : List SandboxRegistryEntry) (acc : PruneOutcome) (e : SandboxRegistryEntry),
      e ∈ (l.foldl (pruneEntryStep cfg now rt) acc).finalEntries → e ∈ acc.finalEntries := by
  intro l
  induction l with
  | nil => intro acc e h; exact h
  | cons q l ih =>
    intro acc e h
    exact pruneEntryStep_finalEntries_sub cfg now rt acc q e (ih _ e h)

theorem pruneFold_removes_eligible (cfg : SandboxConfig) (now : Int)
    (rt : String → Bool) :
    ∀ (l : List SandboxRegistryEntry) (acc : PruneOutcome) (p : SandboxRegistryEntry),
      p ∈ l → shouldPruneSandboxEntry cfg now p = true →
      ∀ e ∈ (l.foldl (pruneEntryStep cfg now rt) acc).finalEntries,
        e.containerName ≠ p.containerName := by
  intro l
  induction l with
  | nil => intro acc p hp; cases hp
  | cons q l ih =>
    intro acc p hp helig e he
    rcases List.mem_cons.mp hp with hpq | hpl
    · subst hpq
      have hsub := pruneFold_finalEntries_sub cfg now rt l _ e he
      unfold pruneEntryStep at hsub
      rw [if_pos helig] at hsub
      simp only [removeRegistryEntry, List.mem_filter, decide_eq_true_iff] at hsub
      exact hsub.2
    · exact ih _ p hpl helig e he

theorem pruneFold_keeps_ineligible (cfg : SandboxConfig) (now : Int)
    (rt : String → Bool) :
    ∀ (l : List SandboxRegistryEntry) (acc : PruneOutcome) (e : SandboxRegistryEntry),
      e ∈ acc.finalEntries →
      (∀ p ∈ l, shouldPruneSandboxEntry cfg now p = true →
          p.containerName ≠ e.containerName) →
      e ∈ (l.foldl (pruneEntryStep cfg now rt) acc).finalEntries := by
  intro l
  induction l with
  | nil => intro acc e he _; exact he
  | cons q l ih =>
    intro acc e he hnames
    refine ih _ e ?_ (fun p hp => hnames p (List.mem_cons_of_mem q hp))
    unfold pruneEntryStep
    split
    · next helig =>
      simp only [removeRegistryEntry, List.mem_filter, decide_eq_true_iff]
      exact ⟨he, fun hEq => hnames q (List.mem_cons_self q l) helig hEq.symm⟩
    · exact he

theorem pruneFold_rmAttempts_characterize (cfg : SandboxConfig) (now : Int)
    (rt : String → Bool) :
    ∀ (l : List SandboxRegistryEntry) (acc : PruneOutcome) (a : String),
      a ∈ (l.foldl (pruneEntryStep cfg now rt) acc).rmAttempts →
      a ∈ acc.rmAttempts ∨
        ∃ p, p ∈ l ∧ shouldPruneSandboxEntry cfg now p = true ∧ a = p.containerName := by
  intro l
  induction l with
  | nil => intro acc a h; exact Or.inl h
  | cons q l ih =>
    intro acc a h
    rcases ih _ a h with hacc | ⟨p, hp, helig, hname⟩
    · unfold pruneEntryStep at hacc
      split at hacc
      · next helig =>
        simp only [List.mem_append, List.mem_singleton] at hacc
        rcases hacc with h0 | h0
        · exact Or.inl h0
        · exact Or.inr ⟨q, List.mem_cons_self q l, helig, h0⟩
      · exact Or.inl hacc
    · exact Or.inr ⟨p, List.mem_cons_of_mem q hp, helig, hname⟩

theorem pruneFold_removeCalls_characterize (cfg : SandboxConfig) (now : Int)
    (rt : String → Bool) :
    ∀ (l : List SandboxRegistryEntry) (acc : PruneOutcome) (a : String),
      a ∈ (l.foldl (pruneEntryStep cfg now rt) acc).removeCalls →
      a ∈ acc.removeCalls ∨
        ∃ p, p ∈ l ∧ shouldPruneSandboxEntry cfg now p = true ∧ a = p.containerName := by
  intro l
  induction l with
  | nil => intro acc a h; exact Or.inl h
  | cons q l ih =>
    intro acc a h
    rcases ih _ a h with hacc | ⟨p, hp, helig, hname⟩
    · unfold pruneEntryStep at hacc
      split at hacc
      · next helig =>
        simp only [List.mem_append, List.mem_singleton] at hacc
        rcases hacc with h0 | h0
        · exact Or.inl h0
        · exact Or.inr ⟨q, List.mem_cons_self q l, helig, h0⟩
      · exact Or.inl hacc
    · exact Or.inr ⟨p, List.mem_cons_of_mem q hp, helig, hname⟩

theorem pruneFold_removeCalls_mono (cfg : SandboxConfig) (now : Int)
    (rt : String → Bool) :
    ∀ (l : List SandboxRegistryEntry) (acc : PruneOutcome) (a : String),
      a ∈ acc.removeCalls → a ∈ (l.foldl (pruneEntryStep cfg now rt) acc).removeCalls := by
  intro l
  induction l with
  | nil => intro acc a h; exact h
  | cons q l ih =>
    intro acc a h
    refine ih _ a ?_
    unfold pruneEntryStep
    split
    · simp only [List.mem_append]
      exact Or.inl h
    · exact h

theorem pruneFold_removeCalls_of_eligible (cfg : SandboxConfig) (now : Int)
    (rt : String → Bool) :
    ∀ (l : List SandboxRegistryEntry) (acc : PruneOutcome) (p : SandboxRegistryEntry),
      p ∈ l → shouldPruneSandboxEntry cfg now p = true →
      p.containerName ∈ (l.foldl (pruneEntryStep cfg now rt) acc).removeCalls := by
  intro l
  induction l with
  | nil => intro acc p hp; cases hp
  | cons q l ih =>
    intro acc p hp helig
    rcases List.mem_cons.mp hp with hpq | hpl
    · subst hpq
      refine pruneFold_removeCalls_mono cfg now rt l _ _ ?_
      unfold pruneEntryStep
      rw [if_pos helig]
      simp only [List.mem_append, List.mem_singleton]
      exact Or.inr trivial
    · exact ih _ p hpl helig

theorem shouldPrune_true_not_disabled (cfg : SandboxConfig) (now : Int)
    (entry : SandboxRegistryEntry)
    (h : shouldPruneSandboxEntry cfg now entry = true) :
    ¬ (cfg.prune.idleHours = 0 ∧ cfg.prune.maxAgeDays = 0) := by
  intro hz
  unfold shouldPruneSandboxEntry at h
  rw [if_pos hz] at h
  cases h

/-- C2: in a prune pass, every eligible entry's registry removal executes
unconditionally — its name is passed to the registry `remove` and it is
absent from the final registry — for every outcome of the runtime container
removal (`rtRemoveFails` is universally quantified, so the registry removal
happens even when `docker rm -f` throws). -/
theorem pruneSandboxRegistryEntries_removes_eligible (cfg : SandboxConfig) (now : Int)
    (entries : List SandboxRegistryEntry) (rtRemoveFails : String → Bool)
    (entry : SandboxRegistryEntry)
    (hmem : entry ∈ entries)
    (helig : shouldPruneSandboxEntry cfg now entry = true) :
    entry.containerName ∈
        (pruneSandboxRegistryEntries cfg now entries false rtRemoveFails).removeCalls ∧
      ∀ e ∈ (pruneSandboxRegistryEntries cfg now entries false rtRemoveFails).finalEntries,
        e.containerName ≠ entry.containerName := by
  have hnd := shouldPrune_true_not_disabled cfg now entry helig
  unfold pruneSandboxRegistryEntries
  rw [if_neg hnd]
  simp only [Bool.false_eq_true, if_false]
  exact ⟨pruneFold_removeCalls_of_eligible cfg now rtRemoveFails entries _ entry hmem helig,
    fun e he => pruneFold_removes_eligible cfg now rtRemoveFails entries _ entry hmem helig e he⟩

/-- Witness for C2: a two-hour-idle entry under `idleHours = 1` is removed
from the registry even though the runtime removal fails for every name. -/
theorem pruneSandboxRegistryEntries_removes_eligible_witness :
    "c1" ∈ (pruneSandboxRegistryEntries ⟨⟨1, 0⟩⟩ 7200000
        [⟨"c1", "img", "agent:a:1", 0, 0⟩] false (fun _ => true)).removeCalls ∧
      ∀ e ∈ (pruneSandboxRegistryEntries ⟨⟨1, 0⟩⟩ 7200000
          [⟨"c1", "img", "agent:a:1", 0, 0⟩] false (fun _ => true)).finalEntries,
        e.containerName ≠ "c1" :=
  pruneSandboxRegistryEntries_removes_eligible ⟨⟨1, 0⟩⟩ 7200000
    [⟨"c1", "img", "agent:a:1", 0, 0⟩] (fun _ => true)
    ⟨"c1", "img", "agent:a:1", 0, 0⟩ (List.mem_singleton.mpr rfl) (by decide)

/-- C9: a prune pass touches only eligible entries: an entry that
`shouldPruneSandboxEntry` (at the single `now` of the pass) judges
ineligible survives the pass in the registry, and no `docker rm` attempt and
no registry removal is made for its name (registry names are unique, §3). -/
theorem pruneSandboxRegistryEntries_frame (cfg : SandboxConfig) (now : Int)
    (entries : List SandboxRegistryEntry) (rtRemoveFails : String → Bool)
    (entry : SandboxRegistryEntry)
    (hnodup : (entries.map (fun e => e.containerName)).Nodup)
    (hmem : entry ∈ entries)
    (hskip : shouldPruneSandboxEntry cfg now entry = false) :
    entry ∈ (pruneSandboxRegistryEntries cfg now entries false rtRemoveFails).finalEntries ∧
      entry.containerName ∉
        (pruneSandboxRegistryEntries cfg now entries false rtRemoveFails).rmAttempts ∧
      entry.containerName ∉
        (pruneSandboxRegistryEntries cfg now entries false rtRemoveFails).removeCalls := by
  have hinj := List.inj_on_of_nodup_map hnodup
  unfold pruneSandboxRegistryEntries
  by_cases hz : cfg.prune.idleHours = 0 ∧ cfg.prune.maxAgeDays = 0
  · rw [if_pos hz]
    exact ⟨hmem, List.not_mem_nil _, List.not_mem_nil _⟩
  · rw [if_neg hz]
    simp only [Bool.false_eq_true, if_false]
    refine ⟨?_, ?_, ?_⟩
    · refine pruneFold_keeps_ineligible cfg now rtRemoveFails entries _ entry hmem ?_
      intro p hp hpe hEq
      have hpq : p = entry := hinj hp hmem hEq
      rw [hpq, hskip] at hpe
      cases hpe
    · intro hin
      rcases pruneFold_rmAttempts_characterize cfg now rtRemoveFails entries _ _ hin
        with h0 | ⟨p, hp, hpe, hname⟩
      · exact List.not_mem_nil _ h0
      · have hpq : p = entry := hinj hp hmem hname.symm
        rw [hpq, hskip] at hpe
        cases hpe
    · intro hin
      rcases pruneFold_removeCalls_characterize cfg now rtRemoveFails entries _ _ hin
        with h0 | ⟨p, hp, hpe, hname⟩
      · exact List.not_mem_nil _ h0
      · have hpq : p = entry := hinj hp hmem hname.symm
        rw [hpq, hskip] at hpe
        cases hpe

/-- Witness for C9: a freshly used entry under `idleHours = 1` survives a
prune pass untouched, with no `docker rm` attempt and no registry removal. -/
theorem pruneSandboxRegistryEntries_frame_witness :
    (⟨"c1", "img", "agent:a:1", 0, 0⟩ : SandboxRegistryEntry) ∈
        (pruneSandboxRegistryEntries ⟨⟨1, 0⟩⟩ 1000
          [⟨"c1", "img", "agent:a:1", 0, 0⟩] false (fun _ => false)).finalEntries ∧
      "c1" ∉ (pruneSandboxRegistryEntries ⟨⟨1, 0⟩⟩ 1000
          [⟨"c1", "img", "agent:a:1", 0, 0⟩] false (fun _ => false)).rmAttempts ∧
      "c1" ∉ (pruneSandboxRegistryEntries ⟨⟨1, 0⟩⟩ 1000
          [⟨"c1", "img", "agent:a:1", 0, 0⟩] false (fun _ => false)).removeCalls :=
  pruneSandboxRegistryEntries_frame ⟨⟨1, 0⟩⟩ 1000
    [⟨"c1", "img", "agent:a:1", 0, 0⟩] (fun _ => false)
    ⟨"c1", "img", "agent:a:1", 0, 0⟩ (by simp) (List.mem_singleton.mpr rfl) (by decide)

/-- C4: an invocation of `maybePruneSandboxes` less than five minutes after
the timestamp recorded by a non-skipped invocation is a no-op — it reads no
registry, attempts no removals, and leaves the module state unchanged — and
a non-skipped invocation records `lastPruneAtMs = now` for every prune
outcome, including a failing one (`readFails`, `rtRemoveFails` arbitrary). -/
theorem maybePruneSandboxes_rate_limit (cfg : SandboxConfig)
    (now1 passNow1 now2 passNow2 : Int) (st0 : PruneGlobalState)
    (entries1 entries2 : List SandboxRegistryEntry)
    (readFails1 readFails2 : Bool) (rtFail1 rtFail2 : String → Bool)
    (hrun : 5 * 60 * 1000 ≤ now1 - st0.lastPruneAtMs)
    (hsoon : now2 - now1 < 5 * 60 * 1000) :
    (maybePruneSandboxes cfg now1 passNow1 st0 entries1 readFails1 rtFail1).state =
        { lastPruneAtMs := now1 } ∧
      (maybePruneSandboxes cfg now2 passNow2
          (maybePruneSandboxes cfg now1 passNow1 st0 entries1 readFails1 rtFail1).state
          entries2 readFails2 rtFail2).skipped = true ∧
      (maybePruneSandboxes cfg now2 passNow2
          (maybePruneSandboxes cfg now1 passNow1 st0 entries1 readFails1 rtFail1).state
          entries2 readFails2 rtFail2).state = { lastPruneAtMs := now1 } ∧
      (maybePruneSandboxes cfg now2 passNow2
          (maybePruneSandboxes cfg now1 passNow1 st0 entries1 readFails1 rtFail1).state
          entries2 readFails2 rtFail2).pass.registryRead = false ∧
      (maybePruneSandboxes cfg now2 passNow2
          (maybePruneSandboxes cfg now1 passNow1 st0 entries1 readFails1 rtFail1).state
          entries2 readFails2 rtFail2).pass.rmAttempts = [] ∧
      (maybePruneSandboxes cfg now2 passNow2
          (maybePruneSandboxes cfg now1 passNow1 st0 entries1 readFails1 rtFail1).state
          entries2 readFails2 rtFail2).pass.removeCalls = [] ∧
      (maybePruneSandboxes cfg now2 passNow2
          (maybePruneSandboxes cfg now1 passNow1 st0 entries1 readFails1 rtFail1).state
          entries2 readFails2 rtFail2).pass.finalEntries = entries2 := by
  have h1 : (maybePruneSandboxes cfg now1 passNow1 st0 entries1 readFails1 rtFail1).state =
      { lastPruneAtMs := now1 } := by
    unfold maybePruneSandboxes
    rw [if_neg (by omega : ¬ (now1 - st0.lastPruneAtMs < 5 * 60 * 1000))]
  rw [h1]
  have h2 : ((⟨now1⟩ : PruneGlobalState).lastPruneAtMs) = now1 := rfl
  unfold maybePruneSandboxes
  rw [if_pos (by rw [h2]; omega : (now2 - (⟨now1⟩ : PruneGlobalState).lastPruneAtMs <
    5 * 60 * 1000))]
  exact ⟨rfl, rfl, rfl, rfl, rfl, rfl, rfl⟩

/-- Witness for C4: the first call at `t = 300000` (state initialised to 0)
runs and records `300000`; a second call at `t = 500000` is a skipped no-op
even though the first pass's registry read failed. -/
theorem maybePruneSandboxes_rate_limit_witness :
    (maybePruneSandboxes ⟨⟨1, 0⟩⟩ 300000 300001 ⟨0⟩ [] true (fun _ => false)).state =
        { lastPruneAtMs := 300000 } ∧
      (maybePruneSandboxes ⟨⟨1, 0⟩⟩ 500000 500001
          (maybePruneSandboxes ⟨⟨1, 0⟩⟩ 300000 300001 ⟨0⟩ [] true (fun _ => false)).state
          [⟨"c1", "img", "agent:a:1", 0, 0⟩] false (fun _ => false)).skipped = true ∧
      (maybePruneSandboxes ⟨⟨1, 0⟩⟩ 500000 500001
          (maybePruneSandboxes ⟨⟨1, 0⟩⟩ 300000 300001 ⟨0⟩ [] true (fun _ => false)).state
          [⟨"c1", "img", "agent:a:1", 0, 0⟩] false (fun _ => false)).state =
        { lastPruneAtMs := 300000 } ∧
      (maybePruneSandboxes ⟨⟨1, 0⟩⟩ 500000 500001
          (maybePruneSandboxes ⟨⟨1, 0⟩⟩ 300000 300001 ⟨0⟩ [] true (fun _ => false)).state
          [⟨"c1", "img", "agent:a:1", 0, 0⟩] false (fun _ => false)).pass.registryRead = false ∧
      (maybePruneSandboxes ⟨⟨1, 0⟩⟩ 500000 500001
          (maybePruneSandboxes ⟨⟨1, 0⟩⟩ 300000 300001 ⟨0⟩ [] true (fun _ => false)).state
          [⟨"c1", "img", "agent:a:1", 0, 0⟩] false (fun _ => false)).pass.rmAttempts = [] ∧
      (maybePruneSandboxes ⟨⟨1, 0⟩⟩ 500000 500001
          (maybePruneSandboxes ⟨⟨1, 0⟩⟩ 300000 300001 ⟨0⟩ [] true (fun _ => false)).state
          [⟨"c1", "img", "agent:a:1", 0, 0⟩] false (fun _ => false)).pass.removeCalls = [] ∧
      (maybePruneSandboxes ⟨⟨1, 0⟩⟩ 500000 500001
          (maybePruneSandboxes ⟨⟨1, 0⟩⟩ 300000 300001 ⟨0⟩ [] true (fun _ => false)).state
          [⟨"c1", "img", "agent:a:1", 0, 0⟩] false (fun _ => false)).pass.finalEntries =
        [⟨"c1", "img", "agent:a:1", 0, 0⟩] :=
  maybePruneSandboxes_rate_limit ⟨⟨1, 0⟩⟩ 300000 300001 500000 500001 ⟨0⟩ []
    [⟨"c1", "img", "agent:a:1", 0, 0⟩] true false (fun _ => false) (fun _ => false)
    (by decide) (by decide)

/-- The runtime's answer to a container-state query: the container is
missing, exists but is stopped, exists and is running, or the query itself
failed (daemon unreachable / timeout). -/
inductive RuntimeReport where
  | missing
  | stopped
  | runningOk
  | failure
  deriving Repr, DecidableEq

/-- The `{exists, running}` pair returned by the runtime adapter
(`exists` is a Lean keyword, hence `existsFlag`). -/
structure ContainerState where
  existsFlag : Bool
  running : Bool
  deriving Repr, DecidableEq

/-- Modelled from the spec: `dockerContainerState` lives in
`src/agents/sandbox/docker.ts`, which is not part of the provided sources.
Spec §4.2 gives `containerState(name) -> {exists: bool, running: bool}`, and
§5 requires a timed-out/failed individual query to degrade to the safe
default `exists = false` rather than failing the batch; a container that
does not exist is not running (§4.5's three observable states). -/
def dockerContainerState : RuntimeReport → ContainerState
  | RuntimeReport.missing => { existsFlag := false, running := false }
  | RuntimeReport.stopped => { existsFlag := true, running := false }
  | RuntimeReport.runningOk => { existsFlag := true, running := true }
  | RuntimeReport.failure => { existsFlag := false, running := false }

/-- `SandboxContainerInfo = SandboxRegistryEntry & {running, imageMatch}`. -/
structure SandboxContainerInfo extends SandboxRegistryEntry where
  running : Bool
  imageMatch : Bool
  deriving Repr, DecidableEq

/-- Result of reconciling one entry: the augmented view plus the image
inspections attempted while producing it. -/
structure ReconcileStepResult where
  item : SandboxContainerInfo
  inspectAttempts : List String
  deriving Repr, DecidableEq

/-- The loop body of `listSandboxRegistryItems`: query the container state;
only when the container exists, best-effort `docker inspect` (the
`inspectImage` oracle returns `none` when the call threw or exited
non-zero, in which case the recorded image is kept); resolve the agent id
from the session key and the configured image for it; emit the entry with
the observed image, the running flag and the image-match flag. -/
def reconcileSandboxEntry (stateOf : String → RuntimeReport)
    (inspectImage : String → Option String)
    (resolveSandboxAgentId : String → Option String)
    (resolveConfiguredImage : Option String → String)
    (entry : SandboxRegistryEntry) : ReconcileStepResult :=
  let state := dockerContainerState (stateOf entry.containerName)
  let actualImage :=
    if state.existsFlag then
      match inspectImage entry.containerName with
      | some img => img
      | none => entry.image
    else entry.image
  let agentId := resolveSandboxAgentId entry.sessionKey
  let configuredImage := resolveConfiguredImage agentId
  { item :=
      { toSandboxRegistryEntry := { entry with image := actualImage }
        running := state.running
        imageMatch := actualImage == configuredImage }
    inspectAttempts := if state.existsFlag then [entry.containerName] else [] }

/-- Output of `listSandboxRegistryItems`: the reconciled views in registry
read order plus every image inspection attempted during the batch. -/
structure ListItemsResult where
  items : List SandboxContainerInfo
  inspectAttempts : List String
  deriving Repr, DecidableEq

/-- `listSandboxRegistryItems` from the sandbox listing module: reconcile
every registry entry in read order, accumulating the results. -/
def listSandboxRegistryItems (stateOf : String → RuntimeReport)
    (inspectImage : String → Option String)
    (resolveSandboxAgentId : String → Option String)
    (resolveConfiguredImage : Option String → String)
    (entries : List SandboxRegistryEntry) : ListItemsResult :=
  entries.foldl
    (fun acc entry =>
      let r := reconcileSandboxEntry stateOf inspectImage resolveSandboxAgentId
        resolveConfiguredImage entry
      { items := acc.items ++ [r.item]
        inspectAttempts := acc.inspectAttempts ++ r.inspectAttempts })
    { items := [], inspectAttempts := [] }

theorem listItemsFold_items_eq (stateOf : String → RuntimeReport)
    (inspectImage : String → Option String)
    (resolveSandboxAgentId : String → Option String)
    (resolveConfiguredImage : Option String → String) :
    ∀ (l : List SandboxRegistryEntry) (acc : ListItemsResult),
      (l.foldl
          (fun acc entry =>
            let r := reconcileSandboxEntry stateOf inspectImage resolveSandboxAgentId
              resolveConfiguredImage entry
            { items := acc.items ++ [r.item]
              inspectAttempts := acc.inspectAttempts ++ r.inspectAttempts })
          acc).items =
        acc.items ++ l.map (fun entry =>
          (reconcileSandboxEntry stateOf inspectImage resolveSandboxAgentId
            resolveConfiguredImage entry).item) := by
  intro l
  induction l with
  | nil => intro acc; simp
  | cons q l ih =>
    intro acc
    rw [List.foldl_cons, ih, List.map_cons]
    simp

theorem listSandboxRegistryItems_items_eq_map (stateOf : String → RuntimeReport)
    (inspectImage : String → Option String)
    (resolveSandboxAgentId : String → Option String)
    (resolveConfiguredImage : Option String → String)
    (entries : List SandboxRegistryEntry) :
    (listSandboxRegistryItems stateOf inspectImage resolveSandboxAgentId
        resolveConfiguredImage entries).items =
      entries.map (fun entry =>
        (reconcileSandboxEntry stateOf inspectImage resolveSandboxAgentId
          resolveConfiguredImage entry).item) := by
  unfold listSandboxRegistryItems
  rw [listItemsFold_items_eq]
  simp

theorem reconcile_not_exists (stateOf : String → RuntimeReport)
    (inspectImage : String → Option String)
    (resolveSandboxAgentId : String → Option String)
    (resolveConfiguredImage : Option String → String)
    (entry : SandboxRegistryEntry)
    (h : (dockerContainerState (stateOf entry.containerName)).existsFlag = false) :
    (reconcileSandboxEntry stateOf inspectImage resolveSandboxAgentId
        resolveConfiguredImage entry).item.running = false ∧
      (reconcileSandboxEntry stateOf inspectImage resolveSandboxAgentId
        resolveConfiguredImage entry).item.image = entry.image ∧
      (reconcileSandboxEntry stateOf inspectImage resolveSandboxAgentId
        resolveConfiguredImage entry).inspectAttempts = [] := by
  cases hrep : stateOf entry.containerName
  case missing => simp [reconcileSandboxEntry, dockerContainerState, hrep]
  case stopped =>
    rw [hrep] at h
    simp [dockerContainerState] at h
  case runningOk =>
    rw [hrep] at h
    simp [dockerContainerState] at h
  case failure => simp [reconcileSandboxEntry, dockerContainerState, hrep]

theorem reconcile_running_iff (stateOf : String → RuntimeReport)
    (inspectImage : String → Option String)
    (resolveSandboxAgentId : String → Option String)
    (resolveConfiguredImage : Option String → String)
    (entry : SandboxRegistryEntry) :
    (reconcileSandboxEntry stateOf inspectImage resolveSandboxAgentId
        resolveConfiguredImage entry).item.running = true ↔
      (dockerContainerState (stateOf entry.containerName)).existsFlag = true ∧
        (dockerContainerState (stateOf entry.containerName)).running = true := by
  cases hrep : stateOf entry.containerName <;>
    simp [reconcileSandboxEntry, dockerContainerState, hrep]

theorem reconcile_inspect_failed (stateOf : String → RuntimeReport)
    (inspectImage : String → Option String)
    (resolveSandboxAgentId : String → Option String)
    (resolveConfiguredImage : Option String → String)
    (entry : SandboxRegistryEntry)
    (h : inspectImage entry.containerName = none) :
    (reconcileSandboxEntry stateOf inspectImage resolveSandboxAgentId
        resolveConfiguredImage entry).item.image = entry.image := by
  cases hrep : stateOf entry.containerName <;>
    simp [reconcileSandboxEntry, dockerContainerState, hrep, h]

/-- C3: batch reconciliation is total over the entries: for every runtime /
inspection oracle the batch returns exactly one reconciled view per registry
entry (never raising), each view is a function of its own entry alone (the
batch is the `map` of the per-entry reconciliation, so one entry's failure
cannot affect the rest), and a failed state query degrades that entry to
`running = false` with the recorded image, while a failed image inspection
keeps the recorded image. -/
theorem listSandboxRegistryItems_total (stateOf : String → RuntimeReport)
    (inspectImage : String → Option String)
    (resolveSandboxAgentId : String → Option String)
    (resolveConfiguredImage : Option String → String)
    (entries : List SandboxRegistryEntry) :
    ((listSandboxRegistryItems stateOf inspectImage resolveSandboxAgentId
        resolveConfiguredImage entries).items.length = entries.length) ∧
      ((listSandboxRegistryItems stateOf inspectImage resolveSandboxAgentId
          resolveConfiguredImage entries).items =
        entries.map (fun entry =>
          (reconcileSandboxEntry stateOf inspectImage resolveSandboxAgentId
            resolveConfiguredImage entry).item)) ∧
      (∀ entry : SandboxRegistryEntry,
        stateOf entry.containerName = RuntimeReport.failure →
          (reconcileSandboxEntry stateOf inspectImage resolveSandboxAgentId
              resolveConfiguredImage entry).item.running = false ∧
            (reconcileSandboxEntry stateOf inspectImage resolveSandboxAgentId
              resolveConfiguredImage entry).item.image = entry.image) ∧
      (∀ entry : SandboxRegistryEntry,
        inspectImage entry.containerName = none →
          (reconcileSandboxEntry stateOf inspectImage resolveSandboxAgentId
            resolveConfiguredImage entry).item.image = entry.image) := by
  refine ⟨?_, listSandboxRegistryItems_items_eq_map stateOf inspectImage
    resolveSandboxAgentId resolveConfiguredImage entries, ?_, ?_⟩
  · rw [listSandboxRegistryItems_items_eq_map]
    exact List.length_map entries _
  · intro entry h
    have hx : (dockerContainerState (stateOf entry.containerName)).existsFlag = false := by
      rw [h]
      rfl
    obtain ⟨h1, h2, _⟩ := reconcile_not_exists stateOf inspectImage resolveSandboxAgentId
      resolveConfiguredImage entry hx
    exact ⟨h1, h2⟩
  · intro entry h
    exact reconcile_inspect_failed stateOf inspectImage resolveSandboxAgentId
      resolveConfiguredImage entry h

/-- Witness for C3: with the state query failing for `"bad"` only, a
two-entry batch still yields two views and the `"bad"` entry degrades to
`running = false` with its recorded image. -/
theorem listSandboxRegistryItems_total_witness :
    ((listSandboxRegistryItems
        (fun n => if n == "bad" then RuntimeReport.failure else RuntimeReport.runningOk)
        (fun _ => none) (fun _ => none) (fun _ => "cfgimg")
        [⟨"bad", "img1", "agent:a", 0, 0⟩, ⟨"good", "img2", "agent:b", 0, 0⟩]).items.length
      = 2) ∧
      ((reconcileSandboxEntry
          (fun n => if n == "bad" then RuntimeReport.failure else RuntimeReport.runningOk)
          (fun _ => none) (fun _ => none) (fun _ => "cfgimg")
          ⟨"bad", "img1", "agent:a", 0, 0⟩).item.running = false) ∧
      ((reconcileSandboxEntry
          (fun n => if n == "bad" then RuntimeReport.failure else RuntimeReport.runningOk)
          (fun _ => none) (fun _ => none) (fun _ => "cfgimg")
          ⟨"bad", "img1", "agent:a", 0, 0⟩).item.image = "img1") := by
  have h := listSandboxRegistryItems_total
    (fun n => if n == "bad" then RuntimeReport.failure else RuntimeReport.runningOk)
    (fun _ => none) (fun _ => none) (fun _ => "cfgimg")
    [⟨"bad", "img1", "agent:a", 0, 0⟩, ⟨"good", "img2", "agent:b", 0, 0⟩]
  exact ⟨h.1, (h.2.2.1 ⟨"bad", "img1", "agent:a", 0, 0⟩ (by decide)).1,
    (h.2.2.1 ⟨"bad", "img1", "agent:a", 0, 0⟩ (by decide)).2⟩

/-- C5: an entry whose container the runtime reports as not existing
reconciles to `running = false` with the registry's recorded image and no
image inspection is attempted for it; in general the reconciled `running`
flag is true iff the runtime reports the container both exists and is
running.  The batch view is the per-entry reconciliation mapped over the
registry. -/
theorem listSandboxRegistryItems_missing_and_running (stateOf : String → RuntimeReport)
    (inspectImage : String → Option String)
    (resolveSandboxAgentId : String → Option String)
    (resolveConfiguredImage : Option String → String)
    (entries : List SandboxRegistryEntry) :
    ((listSandboxRegistryItems stateOf inspectImage resolveSandboxAgentId
        resolveConfiguredImage entries).items =
      entries.map (fun entry =>
        (reconcileSandboxEntry stateOf inspectImage resolveSandboxAgentId
          resolveConfiguredImage entry).item)) ∧
      (∀ entry : SandboxRegistryEntry,
        (dockerContainerState (stateOf entry.containerName)).existsFlag = false →
          (reconcileSandboxEntry stateOf inspectImage resolveSandboxAgentId
              resolveConfiguredImage entry).item.running = false ∧
            (reconcileSandboxEntry stateOf inspectImage resolveSandboxAgentId
              resolveConfiguredImage entry).item.image = entry.image ∧
            (reconcileSandboxEntry stateOf inspectImage resolveSandboxAgentId
              resolveConfiguredImage entry).inspectAttempts = []) ∧
      (∀ entry : SandboxRegistryEntry,
        (reconcileSandboxEntry stateOf inspectImage resolveSandboxAgentId
            resolveConfiguredImage entry).item.running = true ↔
          (dockerContainerState (stateOf entry.containerName)).existsFlag = true ∧
            (dockerContainerState (stateOf entry.containerName)).running = true) := by
  refine ⟨listSandboxRegistryItems_items_eq_map stateOf inspectImage
    resolveSandboxAgentId resolveConfiguredImage entries, ?_, ?_⟩
  · intro entry h
    exact reconcile_not_exists stateOf inspectImage resolveSandboxAgentId
      resolveConfiguredImage entry h
  · intro entry
    exact reconcile_running_iff stateOf inspectImage resolveSandboxAgentId
      resolveConfiguredImage entry

/-- Witness for C5: a missing container reconciles to `running = false`,
the recorded image, and zero inspection attempts, while a running one
reconciles to `running = true`. -/
theorem listSandboxRegistryItems_missing_and_running_witness :
    ((reconcileSandboxEntry
        (fun n => if n == "gone" then RuntimeReport.missing else RuntimeReport.runningOk)
        (fun _ => some "otherimg") (fun _ => some "a") (fun _ => "cfgimg")
        ⟨"gone", "img1", "agent:a", 0, 0⟩).item.running = false ∧
      (reconcileSandboxEntry
        (fun n => if n == "gone" then RuntimeReport.missing else RuntimeReport.runningOk)
        (fun _ => some "otherimg") (fun _ => some "a") (fun _ => "cfgimg")
        ⟨"gone", "img1", "agent:a", 0, 0⟩).item.image = "img1" ∧
      (reconcileSandboxEntry
        (fun n => if n == "gone" then RuntimeReport.missing else RuntimeReport.runningOk)
        (fun _ => some "otherimg") (fun _ => some "a") (fun _ => "cfgimg")
        ⟨"gone", "img1", "agent:a", 0, 0⟩).inspectAttempts = []) ∧
      (reconcileSandboxEntry
        (fun n => if n == "gone" then RuntimeReport.missing else RuntimeReport.runningOk)
        (fun _ => some "otherimg") (fun _ => some "a") (fun _ => "cfgimg")
        ⟨"up", "img2", "agent:b", 0, 0⟩).item.running = true := by
  have h := listSandboxRegistryItems_missing_and_running
    (fun n => if n == "gone" then RuntimeReport.missing else RuntimeReport.runningOk)
    (fun _ => some "otherimg") (fun _ => some "a") (fun _ => "cfgimg")
    [⟨"gone", "img1", "agent:a", 0, 0⟩]
  exact ⟨h.2.1 ⟨"gone", "img1", "agent:a", 0, 0⟩ (by decide),
    (h.2.2 ⟨"up", "img2", "agent:b", 0, 0⟩).mpr (by decide)⟩

/-- The `recreate` command's options (`--all`, `--session <key>`,
`--agent <id>`, `--force`); the string options are optional. -/
structure SandboxRecreateOptions where
  all : Bool
  session : Option String
  agent : Option String
  force : Bool
  deriving Repr, DecidableEq

/-- JavaScript truthiness of an optional string flag, as used by
`validateRecreateOptions` and `fetchAndFilterContainers`: an absent flag and
the empty string are both falsy. -/
def jsTruthy : Option String → Bool
  | some s => s ≠ ""
  | none => false

/-- JavaScript `s.startsWith(p)`, embedded on the character data. -/
def jsStartsWith (s p : String) : Bool :=
  p.data.isPrefixOf s.data

theorem jsStartsWith_iff (s p : String) :
    jsStartsWith s p = true ↔ ∃ t : String, s = p ++ t := by
  unfold jsStartsWith
  rw [List.isPrefixOf_iff_prefix]
  constructor
  · rintro ⟨t, ht⟩
    refine ⟨⟨t⟩, ?_⟩
    cases s with
    | mk sd =>
      cases p with
      | mk pd =>
        simp only [String.data] at ht
        exact congrArg String.mk ht.symm
  · rintro ⟨t, rfl⟩
    exact ⟨t.data, (String.data_append p t).symm⟩

/-- Observable outcome of `validateRecreateOptions`: the returned boolean
plus the `runtime.error` messages and `runtime.exit` codes it issued. -/
structure ValidateOutcome where
  ok : Bool
  errors : List String
  exitCodes : List Nat
  deriving Repr, DecidableEq

/-- `validateRecreateOptions` from `src/commands/sandbox.ts`: no truthy
selector is a usage error, more than one truthy selector is a usage error
(`[opts.all, opts.session, opts.agent].filter(Boolean).length`), otherwise
valid. -/
def validateRecreateOptions (opts : SandboxRecreateOptions) : ValidateOutcome :=
  if !opts.all && !jsTruthy opts.session && !jsTruthy opts.agent then
    { ok := false
      errors := ["Please specify --all, --session <key>, or --agent <id>"]
      exitCodes := [1] }
  else
    let exclusiveCount : Nat :=
      (if opts.all then 1 else 0) + (if jsTruthy opts.session then 1 else 0) +
        (if jsTruthy opts.agent then 1 else 0)
    if exclusiveCount > 1 then
      { ok := false
        errors := ["Please specify only one of: --all, --session, --agent"]
        exitCodes := [1] }
    else
      { ok := true, errors := [], exitCodes := [] }

/-- The number of truthy selectors among `{all, session, agent}`. -/
def selectorCount (opts : SandboxRecreateOptions) : Nat :=
  (if opts.all then 1 else 0) + (if jsTruthy opts.session then 1 else 0) +
    (if jsTruthy opts.agent then 1 else 0)

theorem validateRecreateOptions_spec (opts : SandboxRecreateOptions) :
    ((validateRecreateOptions opts).ok = true ↔ selectorCount opts = 1) ∧
      ((validateRecreateOptions opts).ok = false →
        (validateRecreateOptions opts).errors ≠ [] ∧
          (validateRecreateOptions opts).exitCodes = [1]) := by
  unfold validateRecreateOptions selectorCount
  cases hall : opts.all <;> cases hs : jsTruthy opts.session <;>
    cases ha : jsTruthy opts.agent <;> simp

/-- `fetchAndFilterContainers` from `src/commands/sandbox.ts`:
`listSandboxContainers().catch(() => [])` (a `none` outcome degrades to the
empty list), then filter by exact session key when `--session` is truthy,
else by the agent prefix when `--agent` is truthy (`agentSel` is the
source's `agentPrefix`), else no filter. -/
def fetchAndFilterContainers (opts : SandboxRecreateOptions)
    (listOutcome : Option (List SandboxContainerInfo)) : List SandboxContainerInfo :=
  let containers := listOutcome.getD []
  if jsTruthy opts.session then
    containers.filter (fun c => c.sessionKey == opts.session.getD "")
  else if jsTruthy opts.agent then
    let agentSel := "agent:" ++ opts.agent.getD ""
    containers.filter (fun c =>
      c.sessionKey == agentSel || jsStartsWith c.sessionKey (agentSel ++ ":"))
  else
    containers

/-- Aggregate of `removeContainers`: the names attempted (in order) and the
success/fail counters. -/
structure RemoveBatchResult where
  attempts : List String
  successCount : Nat
  failCount : Nat
  deriving Repr, DecidableEq

/-- `removeContainers` from `src/commands/sandbox.ts`: sequentially attempt
every container, counting per-item success/failure (`removeOk` decides
whether `removeSandboxContainer` resolves or rejects for a name); a failure
never stops the loop. -/
def removeContainers (containers : List SandboxContainerInfo)
    (removeOk : String → Bool) : RemoveBatchResult :=
  containers.foldl
    (fun acc c =>
      if removeOk c.containerName then
        { attempts := acc.attempts ++ [c.containerName]
          successCount := acc.successCount + 1
          failCount := acc.failCount }
      else
        { attempts := acc.attempts ++ [c.containerName]
          successCount := acc.successCount
          failCount := acc.failCount + 1 })
    { attempts := [], successCount := 0, failCount := 0 }

/-- Observable outcome of one `sandboxRecreateCommand` run: usage-error
output and exit codes, whether the registry fetch/reconciliation ran,
whether the interactive prompt was shown, whether the run was cancelled,
and the removal batch performed. -/
structure RecreateCommandResult where
  errors : List String
  exitCodes : List Nat
  fetchCalled : Bool
  prompted : Bool
  cancelled : Bool
  attempts : List String
  successCount : Nat
  failCount : Nat
  deriving Repr, DecidableEq

/-- `sandboxRecreateCommand` from `src/commands/sandbox.ts`: validate,
fetch-and-filter, stop on an empty selection, confirm unless `--force`
(`confirm` is the prompt's answer), remove the batch, and exit non-zero
when any removal failed. -/
def sandboxRecreateCommand (opts : SandboxRecreateOptions)
    (listOutcome : Option (List SandboxContainerInfo))
    (confirm : Bool) (removeOk : String → Bool) : RecreateCommandResult :=
  let v := validateRecreateOptions opts
  if !v.ok then
    { errors := v.errors, exitCodes := v.exitCodes, fetchCalled := false,
      prompted := false, cancelled := false, attempts := [],
      successCount := 0, failCount := 0 }
  else
    let containers := fetchAndFilterContainers opts listOutcome
    if containers.isEmpty then
      { errors := [], exitCodes := [], fetchCalled := true, prompted := false,
        cancelled := false, attempts := [], successCount := 0, failCount := 0 }
    else if !opts.force && !confirm then
      { errors := [], exitCodes := [], fetchCalled := true, prompted := true,
        cancelled := true, attempts := [], successCount := 0, failCount := 0 }
    else
      let result := removeContainers containers removeOk
      { errors := [], exitCodes := if result.failCount > 0 then [1] else [],
        fetchCalled := true, prompted := !opts.force, cancelled := false,
        attempts := result.attempts, successCount := result.successCount,
        failCount := result.failCount }

/-- C6: when the number of truthy selectors among `{all, session, agent}`
is not exactly one, the recreate command reports a usage error and exits
non-zero, with zero side effects: no registry fetch/reconciliation, no
prompt, no removal attempt. -/
theorem sandboxRecreateCommand_usage_error (opts : SandboxRecreateOptions)
    (listOutcome : Option (List SandboxContainerInfo))
    (confirm : Bool) (removeOk : String → Bool)
    (h : selectorCount opts ≠ 1) :
    (sandboxRecreateCommand opts listOutcome confirm removeOk).errors ≠ [] ∧
      (sandboxRecreateCommand opts listOutcome confirm removeOk).exitCodes = [1] ∧
      (sandboxRecreateCommand opts listOutcome confirm removeOk).fetchCalled = false ∧
      (sandboxRecreateCommand opts listOutcome confirm removeOk).prompted = false ∧
      (sandboxRecreateCommand opts listOutcome confirm removeOk).attempts = [] ∧
      (sandboxRecreateCommand opts listOutcome confirm removeOk).successCount = 0 ∧
      (sandboxRecreateCommand opts listOutcome confirm removeOk).failCount = 0 := by
  have hok : (validateRecreateOptions opts).ok = false := by
    cases hoktf : (validateRecreateOptions opts).ok
    · rfl
    · exact absurd ((validateRecreateOptions_spec opts).1.mp hoktf) h
  obtain ⟨herr, hexit⟩ := (validateRecreateOptions_spec opts).2 hok
  simp only [sandboxRecreateCommand]
  rw [hok]
  simp only [Bool.not_false, if_pos]
  exact ⟨herr, hexit, trivial, trivial, trivial, trivial, trivial⟩

/-- Witness for C6: `--all --session k` (two selectors) yields a reported
usage error, exit code 1 and no side effects. -/
theorem sandboxRecreateCommand_usage_error_witness :
    (sandboxRecreateCommand ⟨true, some "k", none, false⟩
        (some [⟨⟨"c1", "img", "agent:a", 0, 0⟩, true, true⟩]) true
        (fun _ => true)).errors ≠ [] ∧
      (sandboxRecreateCommand ⟨true, some "k", none, false⟩
        (some [⟨⟨"c1", "img", "agent:a", 0, 0⟩, true, true⟩]) true
        (fun _ => true)).exitCodes = [1] ∧
      (sandboxRecreateCommand ⟨true, some "k", none, false⟩
        (some [⟨⟨"c1", "img", "agent:a", 0, 0⟩, true, true⟩]) true
        (fun _ => true)).fetchCalled = false ∧
      (sandboxRecreateCommand ⟨true, some "k", none, false⟩
        (some [⟨⟨"c1", "img", "agent:a", 0, 0⟩, true, true⟩]) true
        (fun _ => true)).prompted = false ∧
      (sandboxRecreateCommand ⟨true, some "k", none, false⟩
        (some [⟨⟨"c1", "img", "agent:a", 0, 0⟩, true, true⟩]) true
        (fun _ => true)).attempts = [] ∧
      (sandboxRecreateCommand ⟨true, some "k", none, false⟩
        (some [⟨⟨"c1", "img", "agent:a", 0, 0⟩, true, true⟩]) true
        (fun _ => true)).successCount = 0 ∧
      (sandboxRecreateCommand ⟨true, some "k", none, false⟩
        (some [⟨⟨"c1", "img", "agent:a", 0, 0⟩, true, true⟩]) true
        (fun _ => true)).failCount = 0 :=
  sandboxRecreateCommand_usage_error ⟨true, some "k", none, false⟩
    (some [⟨⟨"c1", "img", "agent:a", 0, 0⟩, true, true⟩]) true
    (fun _ => true) (by decide)

/-- C7: recreate filtering selects exactly the intended entries: in session
mode membership is exact session-key equality; in agent mode with id `aid`
membership is `sessionKey = "agent:" ++ aid` or `sessionKey` an extension of
`"agent:" ++ aid ++ ":"`; in all mode (no truthy session/agent) every
fetched container is kept. -/
theorem fetchAndFilterContainers_selects (listOutcome : Option (List SandboxContainerInfo)) :
    (∀ (opts : SandboxRecreateOptions) (key : String),
        opts.session = some key → key ≠ "" →
        ∀ c : SandboxContainerInfo,
          c ∈ fetchAndFilterContainers opts listOutcome ↔
            c ∈ listOutcome.getD [] ∧ c.sessionKey = key) ∧
      (∀ (opts : SandboxRecreateOptions) (aid : String),
          jsTruthy opts.session = false →
          opts.agent = some aid → aid ≠ "" →
          ∀ c : SandboxContainerInfo,
            c ∈ fetchAndFilterContainers opts listOutcome ↔
              c ∈ listOutcome.getD [] ∧
                (c.sessionKey = "agent:" ++ aid ∨
                  ∃ rest : String, c.sessionKey = "agent:" ++ aid ++ ":" ++ rest)) ∧
      (∀ opts : SandboxRecreateOptions,
          jsTruthy opts.session = false → jsTruthy opts.agent = false →
          fetchAndFilterContainers opts listOutcome = listOutcome.getD []) := by
  refine ⟨?_, ?_, ?_⟩
  · intro opts key hsk hkey c
    have ht : jsTruthy (some key) = true := by
      simp [jsTruthy, hkey]
    simp [fetchAndFilterContainers, hsk, ht, List.mem_filter]
  · intro opts aid hs hagent haid c
    have ht : jsTruthy (some aid) = true := by
      simp [jsTruthy, haid]
    simp [fetchAndFilterContainers, hs, hagent, ht, List.mem_filter, Bool.or_eq_true,
      beq_iff_eq, jsStartsWith_iff, and_assoc]
  · intro opts hs ha
    simp [fetchAndFilterContainers, hs, ha]

/-- Witness for C7: `--agent foo` selects `"agent:foo"` and
`"agent:foo:bar"` but not `"agent:foobar"`. -/
theorem fetchAndFilterContainers_selects_witness :
    (⟨⟨"c1", "i", "agent:foo", 0, 0⟩, true, true⟩ : SandboxContainerInfo) ∈
        fetchAndFilterContainers ⟨false, none, some "foo", false⟩
          (some [⟨⟨"c1", "i", "agent:foo", 0, 0⟩, true, true⟩,
            ⟨⟨"c2", "i", "agent:foo:bar", 0, 0⟩, true, true⟩,
            ⟨⟨"c3", "i", "agent:foobar", 0, 0⟩, true, true⟩]) ∧
      (⟨⟨"c2", "i", "agent:foo:bar", 0, 0⟩, true, true⟩ : SandboxContainerInfo) ∈
        fetchAndFilterContainers ⟨false, none, some "foo", false⟩
          (some [⟨⟨"c1", "i", "agent:foo", 0, 0⟩, true, true⟩,
            ⟨⟨"c2", "i", "agent:foo:bar", 0, 0⟩, true, true⟩,
            ⟨⟨"c3", "i", "agent:foobar", 0, 0⟩, true, true⟩]) ∧
      (⟨⟨"c3", "i", "agent:foobar", 0, 0⟩, true, true⟩ : SandboxContainerInfo) ∉
        fetchAndFilterContainers ⟨false, none, some "foo", false⟩
          (some [⟨⟨"c1", "i", "agent:foo", 0, 0⟩, true, true⟩,
            ⟨⟨"c2", "i", "agent:foo:bar", 0, 0⟩, true, true⟩,
            ⟨⟨"c3", "i", "agent:foobar", 0, 0⟩, true, true⟩]) := by
  have h := (fetchAndFilterContainers_selects
    (some [⟨⟨"c1", "i", "agent:foo", 0, 0⟩, true, true⟩,
      ⟨⟨"c2", "i", "agent:foo:bar", 0, 0⟩, true, true⟩,
      ⟨⟨"c3", "i", "agent:foobar", 0, 0⟩, true, true⟩])).2.1
    ⟨false, none, some "foo", false⟩ "foo" rfl rfl (by decide)
  refine ⟨?_, ?_, ?_⟩
  · exact (h ⟨⟨"c1", "i", "agent:foo", 0, 0⟩, true, true⟩).mpr
      ⟨by decide, Or.inl (by decide)⟩
  · exact (h ⟨⟨"c2", "i", "agent:foo:bar", 0, 0⟩, true, true⟩).mpr
      ⟨by decide, Or.inr ⟨"bar", by decide⟩⟩
  · intro hc
    rcases ((h ⟨⟨"c3", "i", "agent:foobar", 0, 0⟩, true, true⟩).mp hc).2 with h1 | ⟨rest, h2⟩
    · exact absurd h1 (by decide)
    · have hpre : jsStartsWith "agent:foobar" ("agent:" ++ "foo" ++ ":") = true :=
        (jsStartsWith_iff "agent:foobar" ("agent:" ++ "foo" ++ ":")).mpr ⟨rest, h2⟩
      exact absurd hpre (by decide)

theorem removeFold_spec (removeOk : String → Bool) :
    ∀ (l : List SandboxContainerInfo) (acc : RemoveBatchResult),
      ((l.foldl
          (fun acc c =>
            if removeOk c.containerName then
              { attempts := acc.attempts ++ [c.containerName]
                successCount := acc.successCount + 1
                failCount := acc.failCount }
            else
              { attempts := acc.attempts ++ [c.containerName]
                successCount := acc.successCount
                failCount := acc.failCount + 1 })
          acc).attempts = acc.attempts ++ l.map (fun c => c.containerName)) ∧
        ((l.foldl
            (fun acc c =>
              if removeOk c.containerName then
                { attempts := acc.attempts ++ [c.containerName]
                  successCount := acc.successCount + 1
                  failCount := acc.failCount }
              else
                { attempts := acc.attempts ++ [c.containerName]
                  successCount := acc.successCount
                  failCount := acc.failCount + 1 })
            acc).successCount +
          (l.foldl
            (fun acc c =>
              if removeOk c.containerName then
                { attempts := acc.attempts ++ [c.containerName]
                  successCount := acc.successCount + 1
                  failCount := acc.failCount }
              else
                { attempts := acc.attempts ++ [c.containerName]
                  successCount := acc.successCount
                  failCount := acc.failCount + 1 })
            acc).failCount = acc.successCount + acc.failCount + l.length) := by
  intro l
  induction l with
  | nil => intro acc; exact ⟨by simp, by simp⟩
  | cons q l ih =>
    intro acc
    rw [List.foldl_cons]
    by_cases hq : removeOk q.containerName = true
    · rw [if_pos hq]
      obtain ⟨ha, hs⟩ := ih { attempts := acc.attempts ++ [q.containerName], successCount := acc.successCount + 1, failCount := acc.failCount }
      refine ⟨?_, ?_⟩
      · rw [ha]
        dsimp only
        simp
      · rw [hs]
        dsimp only
        simp only [List.length_cons]
        omega
    · rw [if_neg hq]
      obtain ⟨ha, hs⟩ := ih { attempts := acc.attempts ++ [q.containerName], successCount := acc.successCount, failCount := acc.failCount + 1 }
      refine ⟨?_, ?_⟩
      · rw [ha]
        dsimp only
        simp
      · rw [hs]
        dsimp only
        simp only [List.length_cons]
        omega

theorem removeContainers_spec (removeOk : String → Bool)
    (containers : List SandboxContainerInfo) :
    ((removeContainers containers removeOk).attempts =
        containers.map (fun c => c.containerName)) ∧
      ((removeContainers containers removeOk).successCount +
          (removeContainers containers removeOk).failCount = containers.length) := by
  unfold removeContainers
  obtain ⟨ha, hs⟩ := removeFold_spec removeOk containers
    { attempts := [], successCount := 0, failCount := 0 }
  exact ⟨by simpa using ha, by simpa using hs⟩

/-- C8: recreate removal is a best-effort batch: every selected container is
attempted in order regardless of earlier failures,
`successCount + failCount` equals the number selected, and (under a valid
selection that proceeds) the command's exit code list is `[1]` exactly when
some removal failed and empty otherwise. -/
theorem removeContainers_best_effort (opts : SandboxRecreateOptions)
    (listOutcome : Option (List SandboxContainerInfo))
    (confirm : Bool) (removeOk : String → Bool)
    (containers : List SandboxContainerInfo)
    (hok : (validateRecreateOptions opts).ok = true)
    (hne : (fetchAndFilterContainers opts listOutcome).isEmpty = false)
    (hgo : opts.force = true ∨ confirm = true) :
    ((removeContainers containers removeOk).attempts =
        containers.map (fun c => c.containerName)) ∧
      ((removeContainers containers removeOk).successCount +
          (removeContainers containers removeOk).failCount = containers.length) ∧
      ((sandboxRecreateCommand opts listOutcome confirm removeOk).attempts =
        (fetchAndFilterContainers opts listOutcome).map (fun c => c.containerName)) ∧
      ((sandboxRecreateCommand opts listOutcome confirm removeOk).successCount +
          (sandboxRecreateCommand opts listOutcome confirm removeOk).failCount =
        (fetchAndFilterContainers opts listOutcome).length) ∧
      ((sandboxRecreateCommand opts listOutcome confirm removeOk).exitCodes =
        if 0 < (sandboxRecreateCommand opts listOutcome confirm removeOk).failCount
        then [1] else []) := by
  have hcond : (!opts.force && !confirm) = false := by
    rcases hgo with h | h <;> rw [h] <;> simp
  have hcmd : sandboxRecreateCommand opts listOutcome confirm removeOk =
      { errors := []
        exitCodes :=
          if 0 < (removeContainers (fetchAndFilterContainers opts listOutcome)
            removeOk).failCount then [1] else []
        fetchCalled := true, prompted := !opts.force, cancelled := false
        attempts := (removeContainers (fetchAndFilterContainers opts listOutcome)
          removeOk).attempts
        successCount := (removeContainers (fetchAndFilterContainers opts listOutcome)
          removeOk).successCount
        failCount := (removeContainers (fetchAndFilterContainers opts listOutcome)
          removeOk).failCount } := by
    simp only [sandboxRecreateCommand, hok, Bool.not_true, hne, hcond, Bool.false_eq_true,
      if_false]
  obtain ⟨hA, hS⟩ := removeContainers_spec removeOk containers
  obtain ⟨hA2, hS2⟩ := removeContainers_spec removeOk (fetchAndFilterContainers opts listOutcome)
  rw [hcmd]
  exact ⟨hA, hS, hA2, hS2, rfl⟩

/-- Witness for C8: three containers with the second removal failing yield
attempts `["c1","c2","c3"]`, `successCount = 2`, `failCount = 1` and exit
code 1 for `recreate --all --force`. -/
theorem removeContainers_best_effort_witness :
    (removeContainers [⟨⟨"c1", "i", "agent:a", 0, 0⟩, true, true⟩,
        ⟨⟨"c2", "i", "agent:b", 0, 0⟩, true, true⟩,
        ⟨⟨"c3", "i", "agent:c", 0, 0⟩, true, true⟩]
        (fun n => !(n == "c2"))).attempts = ["c1", "c2", "c3"] ∧
      (removeContainers [⟨⟨"c1", "i", "agent:a", 0, 0⟩, true, true⟩,
        ⟨⟨"c2", "i", "agent:b", 0, 0⟩, true, true⟩,
        ⟨⟨"c3", "i", "agent:c", 0, 0⟩, true, true⟩]
        (fun n => !(n == "c2"))).successCount = 2 ∧
      (removeContainers [⟨⟨"c1", "i", "agent:a", 0, 0⟩, true, true⟩,
        ⟨⟨"c2", "i", "agent:b", 0, 0⟩, true, true⟩,
        ⟨⟨"c3", "i", "agent:c", 0, 0⟩, true, true⟩]
        (fun n => !(n == "c2"))).failCount = 1 ∧
      (sandboxRecreateCommand ⟨true, none, none, true⟩
        (some [⟨⟨"c1", "i", "agent:a", 0, 0⟩, true, true⟩,
          ⟨⟨"c2", "i", "agent:b", 0, 0⟩, true, true⟩,
          ⟨⟨"c3", "i", "agent:c", 0, 0⟩, true, true⟩]) false
        (fun n => !(n == "c2"))).exitCodes = [1] := by
  have h := removeContainers_best_effort ⟨true, none, none, true⟩
    (some [⟨⟨"c1", "i", "agent:a", 0, 0⟩, true, true⟩,
      ⟨⟨"c2", "i", "agent:b", 0, 0⟩, true, true⟩,
      ⟨⟨"c3", "i", "agent:c", 0, 0⟩, true, true⟩]) false
    (fun n => !(n == "c2"))
    [⟨⟨"c1", "i", "agent:a", 0, 0⟩, true, true⟩,
      ⟨⟨"c2", "i", "agent:b", 0, 0⟩, true, true⟩,
      ⟨⟨"c3", "i", "agent:c", 0, 0⟩, true, true⟩]
    (by decide) (by decide) (Or.inl rfl)
  exact ⟨h.1.trans (by decide), by decide, by decide,
    (h.2.2.2.2).trans (by decide)⟩

theorem validateRecreateOptions_session_empty (opts : SandboxRecreateOptions)
    (h : opts.session = some "") :
    validateRecreateOptions opts =
      validateRecreateOptions { opts with session := none } := by
  have h1 : jsTruthy opts.session = false := by
    rw [h]
    decide
  have h2 : jsTruthy (none : Option String) = false := rfl
  simp only [validateRecreateOptions]
  simp only [h1, h2]

theorem validateRecreateOptions_agent_empty (opts : SandboxRecreateOptions)
    (h : opts.agent = some "") :
    validateRecreateOptions opts =
      validateRecreateOptions { opts with agent := none } := by
  have h1 : jsTruthy opts.agent = false := by
    rw [h]
    decide
  have h2 : jsTruthy (none : Option String) = false := rfl
  simp only [validateRecreateOptions]
  simp only [h1, h2]

theorem fetchAndFilterContainers_session_empty (opts : SandboxRecreateOptions)
    (listOutcome : Option (List SandboxContainerInfo))
    (h : opts.session = some "") :
    fetchAndFilterContainers opts listOutcome =
      fetchAndFilterContainers { opts with session := none } listOutcome := by
  have h1 : jsTruthy opts.session = false := by
    rw [h]
    decide
  have h2 : jsTruthy (none : Option String) = false := rfl
  simp only [fetchAndFilterContainers]
  simp only [h1, h2, Bool.false_eq_true, if_false]

theorem fetchAndFilterContainers_agent_empty (opts : SandboxRecreateOptions)
    (listOutcome : Option (List SandboxContainerInfo))
    (h : opts.agent = some "") :
    fetchAndFilterContainers opts listOutcome =
      fetchAndFilterContainers { opts with agent := none } listOutcome := by
  have h1 : jsTruthy opts.agent = false := by
    rw [h]
    decide
  have h2 : jsTruthy (none : Option String) = false := rfl
  simp only [fetchAndFilterContainers]
  simp only [h1, h2, Bool.false_eq_true, if_false]

theorem sandboxRecreateCommand_congr (opts opts' : SandboxRecreateOptions)
    (listOutcome : Option (List SandboxContainerInfo))
    (confirm : Bool) (removeOk : String → Bool)
    (hv : validateRecreateOptions opts = validateRecreateOptions opts')
    (hf : fetchAndFilterContainers opts listOutcome =
      fetchAndFilterContainers opts' listOutcome)
    (hforce : opts.force = opts'.force) :
    sandboxRecreateCommand opts listOutcome confirm removeOk =
      sandboxRecreateCommand opts' listOutcome confirm removeOk := by
  simp only [sandboxRecreateCommand, hv, hf, hforce]

/-- C10: a selector given as the empty string is treated as absent: the
whole recreate run with `session = some ""` (resp. `agent = some ""`)
equals the run with that selector omitted; `--session ""` alone (or
`--agent ""` alone) is rejected exactly like no selector at all; and
`--all` together with an empty-string selector is not flagged as a
conflict. -/
theorem recreate_emptyStringSelector_absent :
    (∀ (opts : SandboxRecreateOptions)
        (listOutcome : Option (List SandboxContainerInfo))
        (confirm : Bool) (removeOk : String → Bool),
        opts.session = some "" →
        sandboxRecreateCommand opts listOutcome confirm removeOk =
          sandboxRecreateCommand { opts with session := none } listOutcome
            confirm removeOk) ∧
      (∀ (opts : SandboxRecreateOptions)
          (listOutcome : Option (List SandboxContainerInfo))
          (confirm : Bool) (removeOk : String → Bool),
          opts.agent = some "" →
          sandboxRecreateCommand opts listOutcome confirm removeOk =
            sandboxRecreateCommand { opts with agent := none } listOutcome
              confirm removeOk) ∧
      ((validateRecreateOptions ⟨false, some "", none, false⟩).ok = false ∧
        validateRecreateOptions ⟨false, some "", none, false⟩ =
          validateRecreateOptions ⟨false, none, none, false⟩) ∧
      ((validateRecreateOptions ⟨false, none, some "", false⟩).ok = false) ∧
      (∀ f : Bool, (validateRecreateOptions ⟨true, some "", none, f⟩).ok = true) ∧
      (∀ f : Bool, (validateRecreateOptions ⟨true, none, some "", f⟩).ok = true) := by
  refine ⟨?_, ?_, ⟨by decide, by decide⟩, by decide, ?_, ?_⟩
  · intro opts listOutcome confirm removeOk h
    exact sandboxRecreateCommand_congr opts { opts with session := none }
      listOutcome confirm removeOk
      (validateRecreateOptions_session_empty opts h)
      (fetchAndFilterContainers_session_empty opts listOutcome h) rfl
  · intro opts listOutcome confirm removeOk h
    exact sandboxRecreateCommand_congr opts { opts with agent := none }
      listOutcome confirm removeOk
      (validateRecreateOptions_agent_empty opts h)
      (fetchAndFilterContainers_agent_empty opts listOutcome h) rfl
  · intro f
    cases f <;> decide
  · intro f
    cases f <;> decide

/-- Witness for C10: `recreate --all` with `session = some ""` runs exactly
like `recreate --all` with the session selector absent. -/
theorem recreate_emptyStringSelector_absent_witness :
    sandboxRecreateCommand ⟨true, some "", none, true⟩
        (some [⟨⟨"c1", "i", "agent:a", 0, 0⟩, true, true⟩]) true (fun _ => true) =
      sandboxRecreateCommand ⟨true, none, none, true⟩
        (some [⟨⟨"c1", "i", "agent:a", 0, 0⟩, true, true⟩]) true (fun _ => true) :=
  recreate_emptyStringSelector_absent.1 ⟨true, some "", none, true⟩
    (some [⟨⟨"c1", "i", "agent:a", 0, 0⟩, true, true⟩]) true (fun _ => true) rfl
